import Mathlib

/-!
Shallow embedding of the interaction/animation core of `src/app/source/final.tsx`
(the `final` variant of the inperspective piece): per-item rotation state, the
back-layer derived-position map, the focus/zoom controller, the per-frame camera
interpolation, the pointer gesture classifier, and the interaction-cooldown
timer effects.

Pixel coordinates, drag distances, durations and camera coordinates are modelled
over `ℚ` (the source arithmetic on them is exact apart from float rounding);
rotation angles and the sinusoidal back-layer offset are modelled over `ℝ`
because the source applies `Math.sin` to them.
-/

namespace Inperspective

/-- A 3-component vector, as `THREE.Vector3` restricted to the fields the
core logic reads and writes. -/
structure Vec3 (α : Type) where
  x : α
  y : α
  z : α
deriving Repr, DecidableEq

/-- An Euler rotation, as `THREE.Euler` restricted to its three angle fields. -/
structure Euler (α : Type) where
  x : α
  y : α
  z : α
deriving Repr, DecidableEq

/-- Per-item shared state, from the `MediaState` interface of `final.tsx`
(the optional text-layout fields are never written by the core logic and are
omitted). -/
structure MediaState where
  rotation : Euler ℝ
  position : Vec3 ℝ
  isActive : Bool

/-- `getBackPosition` from `Scene` in `final.tsx` (lines 911-918):
`maxOffset = 3`, result `(base.x + sin(rot.y)*maxOffset,
base.y + sin(rot.x)*maxOffset, -1)`. -/
noncomputable def getBackPosition (rotation : Euler ℝ) (basePosition : Vec3 ℝ) : Vec3 ℝ :=
  { x := basePosition.x + Real.sin rotation.y * 3
    y := basePosition.y + Real.sin rotation.x * 3
    z := -1 }

/-- `handleMediaRotation` from `Scene` in `final.tsx` (lines 944-960):
maps over the state array; at the addressed index it builds
`Euler(x + deltaY, y + deltaX, 0)` and a derived position; every other
entry is returned unchanged. -/
noncomputable def handleMediaRotation (states : List MediaState) (index : ℕ)
    (deltaX deltaY : ℝ) (basePosition : Vec3 ℝ) : List MediaState :=
  states.mapIdx (fun i state =>
    if i = index then
      let newRotation : Euler ℝ :=
        { x := state.rotation.x + deltaY, y := state.rotation.y + deltaX, z := 0 }
      { state with
          rotation := newRotation
          position := getBackPosition newRotation basePosition }
    else state)

/-- The initial `mediaStates` array of `Scene` (lines 880-886): five default
entries with identity rotation. -/
def initialMediaState : MediaState :=
  { rotation := { x := 0, y := 0, z := 0 }
    position := { x := 0, y := 0, z := 0 }
    isActive := false }

/-- `Array(5).fill(null).map(() => defaultState)`. -/
def initialMediaStates : List MediaState :=
  List.replicate 5 initialMediaState

/-- `pentagonOrder` from `Scene` in `final.tsx` (line 876). -/
def pentagonOrder : List ℕ := [2, 0, 1, 3, 4]

/-- Camera state for the `useFrame` callback of `Scene` (lines 891-909):
actual camera position plus the `animating` flag. Coordinates over `ℚ`. -/
structure CamState where
  pos : Vec3 ℚ
  animating : Bool
deriving Repr, DecidableEq

/-- `THREE.Vector3.lerp(target, t)`: component-wise `a + (b - a) * t`. -/
def lerpVec (a b : Vec3 ℚ) (t : ℚ) : Vec3 ℚ :=
  { x := a.x + (b.x - a.x) * t
    y := a.y + (b.y - a.y) * t
    z := a.z + (b.z - a.z) * t }

/-- Squared Euclidean distance; the source compares
`distanceTo(target) < 0.01`, which for nonnegative radicands is equivalent to
`distSq < 0.0001`. -/
def distSq (a b : Vec3 ℚ) : ℚ :=
  (a.x - b.x) ^ 2 + (a.y - b.y) ^ 2 + (a.z - b.z) ^ 2

/-- One `useFrame` tick of `Scene` (lines 891-909): while `animating`,
lerp the camera position toward `(targetPosition.x, targetPosition.y,
targetZoom)` with damping `0.1`, then set `animating = false` once the
distance to the target is below `0.01`. -/
def frameStep (target : Vec3 ℚ) (s : CamState) : CamState :=
  if s.animating then
    let p := lerpVec s.pos target (1 / 10)
    { pos := p, animating := !(decide (distSq p target < 1 / 10000)) }
  else s

/-- The camera trajectory: `n` frames from an initial state. -/
def camTraj (target : Vec3 ℚ) (init : CamState) (n : ℕ) : CamState :=
  (frameStep target)^[n] init

/-! ## Focus / zoom controller -/

/-- Which layer a panel belongs to (`userData.layer`). -/
inductive Layer
  | front
  | back
deriving Repr, DecidableEq

/-- The `focusedItem` state of `Scene`: `{ index: number | null,
layer: 'front' | 'back' | null }`. -/
structure FocusedItem where
  index : Option ℕ
  layer : Option Layer
deriving Repr, DecidableEq

/-- The three named zoom presets of the `ZOOM_LEVELS` table. -/
inductive ZoomContext
  | overview
  | frontLayer
  | backLayer
deriving Repr, DecidableEq

/-- `getZoomLevel` over the `ZOOM_LEVELS` table of `final.tsx` (lines 68-92). -/
def getZoomLevel (layer : ZoomContext) (isLandscape : Bool) : ℚ :=
  match layer, isLandscape with
  | .overview, true => 7
  | .overview, false => 6
  | .backLayer, true => 6
  | .backLayer, false => 2
  | .frontLayer, true => 4
  | .frontLayer, false => 2

/-- The focus/animation state read and written by `handleMediaFocus`:
`focusedItem`, `targetPosition`, `targetZoom`, `animating`. -/
structure FocusZoomState where
  focusedItem : FocusedItem
  targetPosition : Vec3 ℚ
  targetZoom : ℚ
  animating : Bool
deriving Repr, DecidableEq

/-- `handleMediaFocus` from `final.tsx` (lines 103-154). `index = none`
models the `null` empty-space reset path; otherwise clicking the item that
is already focused (same index and layer) toggles back to overview, and
clicking anything else re-targets directly to it. Both exits set
`animating = true`. -/
def handleMediaFocus (index : Option ℕ) (position : Vec3 ℚ) (layer : Option Layer)
    (viewportWidth viewportHeight : ℚ) (s : FocusZoomState) : FocusZoomState :=
  let isLandscape : Bool := decide (viewportWidth > viewportHeight)
  match index with
  | none =>
      { s with
          targetPosition := { x := 0, y := 0, z := 0 }
          targetZoom := getZoomLevel .overview isLandscape
          focusedItem := { index := none, layer := none }
          animating := true }
  | some idx =>
      if s.focusedItem.index = some idx ∧ s.focusedItem.layer = layer then
        { s with
            targetPosition := { x := 0, y := 0, z := 0 }
            targetZoom := getZoomLevel .overview isLandscape
            focusedItem := { index := none, layer := none }
            animating := true }
      else
        { s with
            targetPosition := position
            targetZoom :=
              getZoomLevel (if layer = some Layer.back then .backLayer else .frontLayer)
                isLandscape
            focusedItem := { index := some idx, layer := layer }
            animating := true }

/-! ## Pointer gesture classifier -/

/-- What the pointer-down ray cast recorded about the hit panel
(`activePanel.current.userData`). -/
structure PanelInfo where
  index : ℕ
  basePosition : Vec3 ℝ
  layer : Layer

/-- The mutable refs of `Scene` touched by the pointer handlers
(lines 829-840), plus the scene rotation and the shared media states. -/
structure SceneState where
  isDragging : Bool
  wasRotating : Bool
  wasRotatingState : Bool
  allowInteraction : Bool
  lastPosition : ℚ × ℚ
  dragStartTime : ℚ
  dragDistance : ℚ × ℚ
  activePanel : Option PanelInfo
  sceneRotation : Euler ℚ
  mediaStates : List MediaState

/-- `handlePointerDown` from `final.tsx` (lines 966-1003). The ray cast
against the scene is external geometry; its result is the `hit` argument. -/
def handlePointerDown (clientX clientY now : ℚ) (hit : Option PanelInfo)
    (s : SceneState) : SceneState :=
  let s1 := { s with
      isDragging := true
      wasRotating := false
      lastPosition := (clientX, clientY)
      dragStartTime := now
      dragDistance := ((0 : ℚ), (0 : ℚ)) }
  match hit with
  | some panel =>
      { s1 with activePanel := some panel, wasRotating := false, wasRotatingState := false }
  | none => { s1 with activePanel := none }

/-- `handlePointerMove` from `final.tsx` (lines 1005-1032): accumulate the
absolute pixel delta, update the last position, then either rotate the
active front panel by the `0.01`-scaled delta, bail out on an active
non-front panel, or (no active panel) rotate the whole scene once either
accumulated axis distance exceeds the threshold (`2` mobile, `5` desktop). -/
noncomputable def handlePointerMove (isMobile : Bool) (clientX clientY : ℚ)
    (s : SceneState) : SceneState :=
  if !s.isDragging then s
  else
    let deltaX := (clientX - s.lastPosition.1) * (1 / 100)
    let deltaY := (clientY - s.lastPosition.2) * (1 / 100)
    let s1 := { s with
        dragDistance := (s.dragDistance.1 + |clientX - s.lastPosition.1|,
                         s.dragDistance.2 + |clientY - s.lastPosition.2|)
        lastPosition := (clientX, clientY) }
    match s.activePanel with
    | some panel =>
        if panel.layer ≠ Layer.front then s1
        else
          { s1 with
              mediaStates :=
                handleMediaRotation s.mediaStates panel.index (deltaX : ℝ) (deltaY : ℝ)
                  panel.basePosition }
    | none =>
        let threshold : ℚ := if isMobile then 2 else 5
        if s1.dragDistance.1 > threshold ∨ s1.dragDistance.2 > threshold then
          { s1 with
              sceneRotation := { x := s1.sceneRotation.x + deltaY,
                                 y := s1.sceneRotation.y + deltaX,
                                 z := s1.sceneRotation.z }
              wasRotating := true
              wasRotatingState := true
              allowInteraction := false }
        else s1

/-- The click classification condition of `handlePointerUp`:
elapsed time `< 200` ms and total accumulated drag distance (x + y)
below the click threshold (`15` mobile, `10` desktop). -/
def classifiesAsClick (isMobile : Bool) (dragDuration dragTotalDistance : ℚ) : Prop :=
  dragDuration < 200 ∧ dragTotalDistance < (if isMobile then (15 : ℚ) else 10)

instance (isMobile : Bool) (d t : ℚ) : Decidable (classifiesAsClick isMobile d t) :=
  inferInstanceAs (Decidable (And _ _))

/-- `handlePointerUp` from `final.tsx` (lines 1034-1055): classify the
gesture; a non-click that was rotating keeps the rotating flags set, a
click clears them and re-enables interaction; dragging stops and the
active panel is released either way. -/
def handlePointerUp (isMobile : Bool) (now : ℚ) (s : SceneState) : SceneState :=
  let dragDuration := now - s.dragStartTime
  let dragTotalDistance := s.dragDistance.1 + s.dragDistance.2
  let isClick := classifiesAsClick isMobile dragDuration dragTotalDistance
  let s1 :=
    if ¬ isClick ∧ s.wasRotating then
      { s with wasRotating := true, wasRotatingState := true }
    else if isClick then
      { s with wasRotating := false, wasRotatingState := false, allowInteraction := true }
    else s
  { s1 with isDragging := false, activePanel := none }

/-! ## Interaction-cooldown timer effects -/

/-- The browser timer table: pending one-shot timers as `(id, delay ms)`
pairs, with a fresh-id counter. -/
structure TimerPool where
  pending : List (ℕ × ℕ)
  nextId : ℕ
deriving Repr, DecidableEq

/-- Remove the referenced timer, if any, from a pending list. -/
def clearPending (l : List (ℕ × ℕ)) : Option ℕ → List (ℕ × ℕ)
  | none => l
  | some i => l.filter (fun t => t.1 ≠ i)

/-- `clearTimeout`: remove the referenced timer, if any, from the pool. -/
def clearTimer (p : TimerPool) (o : Option ℕ) : TimerPool :=
  { p with pending := clearPending p.pending o }

/-- `setTimeout`: register a fresh one-shot timer, returning its id. -/
def setTimer (p : TimerPool) (delay : ℕ) : TimerPool × ℕ :=
  ({ pending := p.pending ++ [(p.nextId, delay)], nextId := p.nextId + 1 }, p.nextId)

/-- The state the two cooldown effects of `final.tsx` act on:
`wasRotatingState` (React state), the `wasRotating` / `allowInteraction`
refs of `Scene`, the `interactionEnabled` ref of the strip component, and
the two timer refs together with the pool of pending timers. -/
structure EffectState where
  wasRotatingState : Bool
  wasRotatingRef : Bool
  allowInteraction : Bool
  stripEnabled : Bool
  sceneTimer : Option ℕ
  stripTimer : Option ℕ
  pool : TimerPool
deriving Repr, DecidableEq

/-- The `interactionResetTimer` effect of `Scene` (lines 921-941): clear
any existing timer, then, when rotating, start a single 300 ms timer. -/
def sceneResetEffect (s : EffectState) : EffectState :=
  let p := clearTimer s.pool s.sceneTimer
  if s.wasRotatingState then
    let r := setTimer p 300
    { s with pool := r.1, sceneTimer := some r.2 }
  else { s with pool := p }

/-- The `interactionTimer` effect of `ResponsiveImageStrip`
(lines 306-328): clear any existing timer; when rotating, disable
interaction and start a 1000 ms re-enable timer; otherwise enable
interaction immediately. -/
def stripInteractionEffect (s : EffectState) : EffectState :=
  let p := clearTimer s.pool s.stripTimer
  if s.wasRotatingState then
    let r := setTimer p 1000
    { s with pool := r.1, stripTimer := some r.2, stripEnabled := false }
  else { s with pool := p, stripEnabled := true }

/-- Both effects re-run after `wasRotatingState` changes (children before
the parent `Scene`). -/
def runEffects (s : EffectState) : EffectState :=
  sceneResetEffect (stripInteractionEffect s)

/-- Scene rotation beginning (the threshold branch of `handlePointerMove`):
`wasRotating.current = true`, `setWasRotatingState(true)`,
`allowInteraction.current = false`; effects re-run only when the React
state actually changed. -/
def startSceneRotation (s : EffectState) : EffectState :=
  let s1 := { s with wasRotatingRef := true, allowInteraction := false }
  if s.wasRotatingState then s1
  else runEffects { s1 with wasRotatingState := true }

/-- The clean-click branch of `handlePointerUp` / `handleMediaClick`:
clears the rotating flags and re-enables interaction. -/
def clickStop (s : EffectState) : EffectState :=
  let s1 := { s with wasRotatingRef := false, allowInteraction := true }
  if s.wasRotatingState then runEffects { s1 with wasRotatingState := false }
  else s1

/-- The 300 ms scene cooldown timer firing: if it is still pending, it is
consumed and its callback runs (`setWasRotatingState(false)`,
`wasRotating.current = false`, `allowInteraction.current = true`),
re-running the effects when the React state changed. -/
def fireSceneTimer (s : EffectState) : EffectState :=
  match s.sceneTimer with
  | none => s
  | some i =>
      if s.pool.pending.any (fun t => t.1 = i) then
        let s1 := { s with
            pool := clearTimer s.pool (some i)
            wasRotatingRef := false
            allowInteraction := true }
        if s.wasRotatingState then runEffects { s1 with wasRotatingState := false }
        else s1
      else s

/-- The strip 1000 ms timer firing: if still pending, consume it and
re-enable the strip interaction flag. -/
def fireStripTimer (s : EffectState) : EffectState :=
  match s.stripTimer with
  | none => s
  | some i =>
      if s.pool.pending.any (fun t => t.1 = i) then
        { s with
            pool := clearTimer s.pool (some i)
            stripEnabled := true }
      else s

/-- The events that drive the cooldown machinery. -/
inductive TimerEvent
  | startRotating
  | clickStop
  | sceneFire
  | stripFire
deriving Repr, DecidableEq

/-- Event step function. -/
def stepEvent : TimerEvent → EffectState → EffectState
  | .startRotating => startSceneRotation
  | .clickStop => clickStop
  | .sceneFire => fireSceneTimer
  | .stripFire => fireStripTimer

/-- Pool/timer sanity invariant: pending ids and the two effect refs are
below the fresh counter, pending ids are distinct, and every pending
timer is owned by one of the two effect refs (so there are never two
competing timers of the same effect). -/
def TimerInv (s : EffectState) : Prop :=
  (∀ t ∈ s.pool.pending, t.1 < s.pool.nextId) ∧
  (s.pool.pending.map Prod.fst).Nodup ∧
  (∀ t ∈ s.pool.pending, some t.1 = s.sceneTimer ∨ some t.1 = s.stripTimer) ∧
  (∀ i, s.sceneTimer = some i → i < s.pool.nextId) ∧
  (∀ i, s.stripTimer = some i → i < s.pool.nextId)

/-- The mount-time state: nothing rotating, no timers pending. -/
def initialEffectState : EffectState :=
  { wasRotatingState := false
    wasRotatingRef := false
    allowInteraction := true
    stripEnabled := true
    sceneTimer := none
    stripTimer := none
    pool := { pending := [], nextId := 0 } }

/-! ## Concrete states used to instantiate the theorems -/

/-- One recorded invocation of `handleMediaRotation`. -/
structure RotationCall where
  index : ℕ
  deltaX : ℝ
  deltaY : ℝ
  basePosition : Vec3 ℝ

/-- Apply a sequence of `handleMediaRotation` calls in order. -/
noncomputable def applyCalls (calls : List RotationCall) (states : List MediaState) :
    List MediaState :=
  calls.foldl
    (fun st c => handleMediaRotation st c.index c.deltaX c.deltaY c.basePosition) states

/-- The animation target of the convergence scenario: `(2, 3, 5)`. -/
def finalTarget : Vec3 ℚ := { x := 2, y := 3, z := 5 }

/-- The camera start of the convergence scenario: position `(0, 0, 5)`,
animation running. -/
def camStart : CamState := { pos := { x := 0, y := 0, z := 5 }, animating := true }

/-- A suppressed mid-gesture state used to instantiate the pointer-up
classification: rotation happened, interaction disabled, pointer down at
time `0`, accumulated drag distance `(4, 5)` px. -/
def testUpState : SceneState :=
  { isDragging := true
    wasRotating := true
    wasRotatingState := true
    allowInteraction := false
    lastPosition := (0, 0)
    dragStartTime := 0
    dragDistance := (4, 5)
    activePanel := none
    sceneRotation := { x := 0, y := 0, z := 0 }
    mediaStates := initialMediaStates }

/-- A back-layer panel as recorded by the pointer-down ray cast. -/
def backPanel : PanelInfo :=
  { index := 0, basePosition := { x := 0, y := 0, z := 0 }, layer := Layer.back }

/-- A dragging state holding a back-layer active panel with accumulated
drag distance `(20, 20)` px, far over every scene-rotation threshold. -/
def backPanelMoveState : SceneState :=
  { isDragging := true
    wasRotating := false
    wasRotatingState := false
    allowInteraction := true
    lastPosition := (0, 0)
    dragStartTime := 0
    dragDistance := (20, 20)
    activePanel := some backPanel
    sceneRotation := { x := 0, y := 0, z := 0 }
    mediaStates := initialMediaStates }

/-- A dragging state with a front-layer active panel, used to instantiate
the panel-rotation branch of the move handler. -/
def frontPanelMoveState : SceneState :=
  { backPanelMoveState with
      activePanel := some { index := 2, basePosition := { x := 0, y := 0, z := 0 },
                            layer := Layer.front } }

/-- A focused state (item 1 of the front layer) used to instantiate the
focus-toggling theorem. -/
def focusedState : FocusZoomState :=
  { focusedItem := { index := some 1, layer := some Layer.front }
    targetPosition := { x := 1, y := 1, z := 0 }
    targetZoom := 4
    animating := false }

/-! ## Helper lemmas -/

theorem handleMediaRotation_getElem (states : List MediaState) (index : ℕ)
    (dX dY : ℝ) (base : Vec3 ℝ) (i : ℕ) :
    (handleMediaRotation states index dX dY base)[i]? =
      states[i]?.map (fun state =>
        if i = index then
          let newRotation : Euler ℝ :=
            { x := state.rotation.x + dY, y := state.rotation.y + dX, z := 0 }
          { state with
              rotation := newRotation
              position := getBackPosition newRotation base }
        else state) := by
  rw [handleMediaRotation, List.mapIdx_eq_ofFn, List.getElem?_ofFn]
  unfold List.ofFnNthVal
  rcases Nat.lt_or_ge i states.length with h | h
  · rw [dif_pos h, List.getElem?_eq_getElem h]
    simp [List.get_eq_getElem]
  · rw [dif_neg (by omega), List.getElem?_eq_none h]
    simp

theorem handleMediaRotation_z_preserved (states : List MediaState) (index : ℕ)
    (dX dY : ℝ) (base : Vec3 ℝ) (h : ∀ m ∈ states, m.rotation.z = 0) :
    ∀ m ∈ handleMediaRotation states index dX dY base, m.rotation.z = 0 := by
  intro m hm
  rw [handleMediaRotation, List.mapIdx_eq_ofFn, List.mem_ofFn] at hm
  obtain ⟨i, rfl⟩ := hm
  by_cases hidx : (i : ℕ) = index
  · simp [hidx]
  · simp only [hidx, if_false]
    exact h _ (List.get_mem states i.1 i.2)

theorem applyCalls_z_preserved (calls : List RotationCall) (states : List MediaState)
    (h : ∀ m ∈ states, m.rotation.z = 0) :
    ∀ m ∈ applyCalls calls states, m.rotation.z = 0 := by
  induction calls generalizing states with
  | nil => exact h
  | cons c rest ih =>
      exact ih _ (handleMediaRotation_z_preserved states c.index c.deltaX c.deltaY
        c.basePosition h)

theorem applyCalls_replicate_rotY (n : ℕ) (d : ℝ) (b : Vec3 ℝ) (states : List MediaState) :
    (applyCalls (List.replicate n ⟨0, d, 0, b⟩) states)[0]?.map (fun m => m.rotation.y) =
      states[0]?.map (fun m => m.rotation.y + n * d) := by
  induction n generalizing states with
  | zero => cases h : states[0]? <;> simp [applyCalls, h]
  | succ n ih =>
      rw [List.replicate_succ]
      have hstep :
          applyCalls (⟨0, d, 0, b⟩ :: List.replicate n ⟨0, d, 0, b⟩) states =
          applyCalls (List.replicate n ⟨0, d, 0, b⟩)
            (handleMediaRotation states 0 d 0 b) := rfl
      rw [hstep, ih, handleMediaRotation_getElem]
      cases h : states[0]? <;> simp [h]
      ring

/-! ## Claim theorems -/

/-- C7: `pentagonOrder` is a bijection over `0..4`: it has five entries,
no entry repeats, and its entries are exactly the indices below five —
so every front-layer index appears in exactly one back-layer slot and
every back-layer slot maps to exactly one front-layer index. -/
theorem pentagonOrder_bijection :
    pentagonOrder.length = 5 ∧ pentagonOrder.Nodup ∧ ∀ x, x ∈ pentagonOrder ↔ x < 5 := by
  refine ⟨rfl, by decide, fun x => ?_⟩
  simp only [pentagonOrder, List.mem_cons, List.not_mem_nil, or_false]
  omega

/-- C9: `handleMediaRotation` only replaces the addressed entry; every
media state entry at an index different from the given one is returned
unchanged. -/
theorem handleMediaRotation_frame (states : List MediaState) (index : ℕ)
    (dX dY : ℝ) (base : Vec3 ℝ) (i : ℕ) (h : i ≠ index) :
    (handleMediaRotation states index dX dY base)[i]? = states[i]? := by
  rw [handleMediaRotation_getElem]
  cases hs : states[i]? <;> simp [h]

/-- Witness for C9 at a concrete input: rotating item 0 leaves item 1
untouched. -/
theorem handleMediaRotation_frame_witness :
    (1 : ℕ) ≠ 0 ∧
      (handleMediaRotation initialMediaStates 0 1 1
        { x := 0, y := 0, z := 0 })[1]? = initialMediaStates[1]? :=
  ⟨one_ne_zero,
    handleMediaRotation_frame initialMediaStates 0 1 1 { x := 0, y := 0, z := 0 } 1
      one_ne_zero⟩

/-- C10: the `z` component of every item's rotation Euler stays exactly `0`:
the initial state is `Euler(0,0,0)` and every `handleMediaRotation` update
rebuilds the rotation with `z` fixed at `0`, so after any sequence of
rotation calls every entry still has `rotation.z = 0`. -/
theorem rotation_z_invariant (calls : List RotationCall) (s : MediaState)
    (hs : s ∈ applyCalls calls initialMediaStates) : s.rotation.z = 0 :=
  applyCalls_z_preserved calls initialMediaStates
    (fun m hm => by
      have hm2 : m ∈ List.replicate 5 initialMediaState := by
        simpa [initialMediaStates] using hm
      rw [List.eq_of_mem_replicate hm2]
      rfl) s hs

/-- Witness for C10 at a concrete input: the empty call sequence and the
default entry. -/
theorem rotation_z_invariant_witness :
    initialMediaState ∈ applyCalls [] initialMediaStates ∧
      initialMediaState.rotation.z = 0 :=
  ⟨by simp [applyCalls, initialMediaStates],
    rotation_z_invariant [] initialMediaState
      (by simp [applyCalls, initialMediaStates])⟩

/-- C8: rotation deltas accumulate additively without clamping or
wraparound: each call adds `deltaX` to the horizontal angle (`rotation.y`)
and `deltaY` to the vertical angle (`rotation.x`), and applying
`deltaX = 0.1` ten times to item 0 starting from zero yields horizontal
rotation exactly `1`. -/
theorem rotation_accumulates :
    (∀ (states : List MediaState) (index : ℕ) (dX dY : ℝ) (base : Vec3 ℝ),
      (handleMediaRotation states index dX dY base)[index]?.map
          (fun m => (m.rotation.x, m.rotation.y)) =
        states[index]?.map (fun m => (m.rotation.x + dY, m.rotation.y + dX))) ∧
    (applyCalls (List.replicate 10 ⟨0, 1 / 10, 0, ⟨0, 0, 0⟩⟩)
        initialMediaStates)[0]?.map (fun m => m.rotation.y) = some 1 := by
  constructor
  · intro states index dX dY base
    rw [handleMediaRotation_getElem]
    cases hs : states[index]? <;> simp
  · rw [applyCalls_replicate_rotY]
    norm_num [initialMediaStates, initialMediaState]

/-- C3: for a front item (whose base position has `z = 0`), the derived
back-layer position equals the base position plus
`(sin(rotation.y)*maxOffset, sin(rotation.x)*maxOffset, fixedZ)` with
`maxOffset = 3` and `fixedZ = -1`. -/
theorem backPosition_correlation (rotation : Euler ℝ) (base : Vec3 ℝ)
    (hz : base.z = 0) :
    getBackPosition rotation base =
      { x := base.x + Real.sin rotation.y * 3
        y := base.y + Real.sin rotation.x * 3
        z := base.z + (-1) } := by
  simp [getBackPosition, hz]

/-- Witness for C3 at a concrete input: identity rotation, base `(1,2,0)`. -/
theorem backPosition_correlation_witness :
    (Vec3.mk (1 : ℝ) 2 0).z = 0 ∧
      getBackPosition { x := 0, y := 0, z := 0 } { x := 1, y := 2, z := 0 } =
        { x := 1 + Real.sin 0 * 3, y := 2 + Real.sin 0 * 3, z := 0 + (-1) } :=
  ⟨rfl, backPosition_correlation { x := 0, y := 0, z := 0 } { x := 1, y := 2, z := 0 } rfl⟩

/-- C4: clicking the item that is already focused (same index and layer)
returns the focus state to `(null, null)`, targets the origin and the
overview zoom for the current orientation; clicking a different item
re-targets directly to it in a single transition, without passing through
the overview state. -/
theorem focus_toggle_and_retarget :
    (∀ (i : ℕ) (L : Layer) (pos : Vec3 ℚ) (vw vh : ℚ) (s : FocusZoomState),
      s.focusedItem = { index := some i, layer := some L } →
      handleMediaFocus (some i) pos (some L) vw vh s =
        { s with
            focusedItem := { index := none, layer := none }
            targetPosition := { x := 0, y := 0, z := 0 }
            targetZoom := getZoomLevel .overview (decide (vw > vh))
            animating := true }) ∧
    (∀ (i j : ℕ) (L M : Layer) (pos : Vec3 ℚ) (vw vh : ℚ) (s : FocusZoomState),
      s.focusedItem = { index := some i, layer := some L } →
      (j ≠ i ∨ M ≠ L) →
      handleMediaFocus (some j) pos (some M) vw vh s =
        { s with
            focusedItem := { index := some j, layer := some M }
            targetPosition := pos
            targetZoom :=
              getZoomLevel (if M = Layer.back then .backLayer else .frontLayer)
                (decide (vw > vh))
            animating := true }) := by
  constructor
  · intro i L pos vw vh s h
    simp [handleMediaFocus, h]
  · intro i j L M pos vw vh s h hne
    have hcond : ¬ (s.focusedItem.index = some j ∧ s.focusedItem.layer = some M) := by
      rw [h]
      rcases hne with h1 | h1 <;> simp <;> intro h2
      · omega
      · exact fun h3 => (h1 h3.symm).elim
    simp [handleMediaFocus, hcond]

/-- Witness for C4 at a concrete input: item 1 of the front layer is
focused and is clicked again in a 16:9 landscape viewport. -/
theorem focus_toggle_and_retarget_witness :
    focusedState.focusedItem = { index := some 1, layer := some Layer.front } ∧
      handleMediaFocus (some 1) { x := 5, y := 5, z := 0 } (some Layer.front) 16 9
          focusedState =
        { focusedState with
            focusedItem := { index := none, layer := none }
            targetPosition := { x := 0, y := 0, z := 0 }
            targetZoom := getZoomLevel .overview (decide ((16 : ℚ) > 9))
            animating := true } :=
  ⟨rfl,
    focus_toggle_and_retarget.1 1 Layer.front { x := 5, y := 5, z := 0 } 16 9
      focusedState rfl⟩

/-! ### Camera animation convergence -/

theorem distSq_nonneg (a b : Vec3 ℚ) : 0 ≤ distSq a b := by
  unfold distSq
  positivity

theorem distSq_lerp (a b : Vec3 ℚ) :
    distSq (lerpVec a b (1 / 10)) b = (81 / 100) * distSq a b := by
  simp only [distSq, lerpVec]
  ring

theorem frameStep_distSq_le (t : Vec3 ℚ) (s : CamState) :
    distSq (frameStep t s).pos t ≤ distSq s.pos t := by
  by_cases h : s.animating = true
  · simp only [frameStep, h, if_true]
    rw [distSq_lerp]
    nlinarith [distSq_nonneg s.pos t]
  · simp [frameStep, h]

theorem frameStep_fix (t : Vec3 ℚ) (s : CamState) (h : s.animating = false) :
    frameStep t s = s := by
  simp [frameStep, h]

theorem pow_sq_eq (n : ℕ) : ((9 / 10 : ℚ) ^ n) ^ 2 = (81 / 100) ^ n := by
  rw [sq, ← mul_pow]
  norm_num

theorem camTraj_closedForm (n : ℕ) (hn : n ≤ 56) :
    camTraj finalTarget camStart n =
      { pos := { x := 2 - 2 * (9 / 10 : ℚ) ^ n, y := 3 - 3 * (9 / 10 : ℚ) ^ n, z := 5 }
        animating := !(decide ((13 : ℚ) * (81 / 100) ^ n < 1 / 10000)) } := by
  induction n with
  | zero =>
      simp only [camTraj, Function.iterate_zero, id_eq, camStart, pow_zero]
      norm_num
  | succ n ih =>
      have hn' : n ≤ 56 := by omega
      have hmono : (81 / 100 : ℚ) ^ 55 ≤ (81 / 100) ^ n :=
        pow_le_pow_of_le_one (by norm_num) (by norm_num) (by omega)
      have h55 : (1 / 10000 : ℚ) ≤ 13 * (81 / 100) ^ 55 := by norm_num
      have hge : (1 / 10000 : ℚ) ≤ 13 * (81 / 100) ^ n := by nlinarith
      have hanim : (!(decide ((13 : ℚ) * (81 / 100) ^ n < 1 / 10000))) = true := by
        simpa using hge
      rw [camTraj, Function.iterate_succ_apply']
      rw [show (frameStep finalTarget)^[n] camStart = camTraj finalTarget camStart n
        from rfl, ih hn']
      rw [frameStep]
      simp only [hanim, if_true]
      have hlerp :
          lerpVec (Vec3.mk (2 - 2 * (9 / 10 : ℚ) ^ n) (3 - 3 * (9 / 10 : ℚ) ^ n) 5)
            finalTarget (1 / 10) =
          Vec3.mk (2 - 2 * (9 / 10 : ℚ) ^ (n + 1)) (3 - 3 * (9 / 10 : ℚ) ^ (n + 1)) 5 := by
        simp only [lerpVec, finalTarget, pow_succ, Vec3.mk.injEq]
        refine ⟨by ring, by ring, by ring⟩
      have hdist :
          distSq (Vec3.mk (2 - 2 * (9 / 10 : ℚ) ^ (n + 1))
              (3 - 3 * (9 / 10 : ℚ) ^ (n + 1)) 5) finalTarget =
            13 * (81 / 100) ^ (n + 1) := by
        simp only [distSq, finalTarget]
        rw [← pow_sq_eq]
        ring
      rw [hlerp, hdist]

/-- C5: with target `(2,3,5)` and damping `0.1`, starting from `(0,0,5)`
with `animating = true`, the squared distance to the target never
increases frame over frame, falls below `0.01²` by frame 56 (a bounded
number of frames), at which point `animating` is `false`, and `animating`
stays `false` on every later frame. -/
theorem animation_convergence :
    (∀ n, distSq (camTraj finalTarget camStart (n + 1)).pos finalTarget ≤
        distSq (camTraj finalTarget camStart n).pos finalTarget) ∧
    distSq (camTraj finalTarget camStart 56).pos finalTarget < 1 / 10000 ∧
    (camTraj finalTarget camStart 56).animating = false ∧
    (∀ m, (camTraj finalTarget camStart (56 + m)).animating = false) := by
  have h56lt : (13 : ℚ) * (81 / 100) ^ 56 < 1 / 10000 := by norm_num
  have hform := camTraj_closedForm 56 le_rfl
  have hdist56 :
      distSq (camTraj finalTarget camStart 56).pos finalTarget < 1 / 10000 := by
    rw [hform]
    have : distSq (Vec3.mk (2 - 2 * (9 / 10 : ℚ) ^ 56) (3 - 3 * (9 / 10 : ℚ) ^ 56) 5)
        finalTarget = 13 * (81 / 100) ^ 56 := by
      simp only [distSq, finalTarget]
      rw [← pow_sq_eq]
      ring
    rw [this]
    exact h56lt
  have hanim56 : (camTraj finalTarget camStart 56).animating = false := by
    rw [hform]
    simpa using h56lt
  refine ⟨?_, hdist56, hanim56, ?_⟩
  · intro n
    rw [camTraj, Function.iterate_succ_apply']
    exact frameStep_distSq_le finalTarget (camTraj finalTarget camStart n)
  · intro m
    induction m with
    | zero => exact hanim56
    | succ m ih =>
        have : 56 + (m + 1) = (56 + m) + 1 := rfl
        rw [this, camTraj, Function.iterate_succ_apply']
        rw [show (frameStep finalTarget)^[56 + m] camStart =
          camTraj finalTarget camStart (56 + m) from rfl]
        rw [frameStep_fix _ _ ih]
        exact ih

/-! ### Pointer-up click classification -/

/-- C1: on pointer-up the gesture classifies as a click iff the elapsed
time is below 200 ms and the total accumulated drag distance (sum of the
x and y accumulated absolute pixel deltas) is below the threshold (10 px
desktop, 15 px mobile); a click clears the rotating flags and immediately
re-enables interaction, and from a suppressed rotating state interaction
ends up re-enabled exactly when the gesture was a click; at the desktop
boundary, 199 ms with 9 px is a click while 201 ms or 11 px is not. -/
theorem pointerUp_click_classification :
    (∀ (isMobile : Bool) (d t : ℚ),
      classifiesAsClick isMobile d t ↔
        d < 200 ∧ t < (if isMobile then (15 : ℚ) else 10)) ∧
    (∀ (isMobile : Bool) (now : ℚ) (s : SceneState),
      classifiesAsClick isMobile (now - s.dragStartTime)
          (s.dragDistance.1 + s.dragDistance.2) →
        (handlePointerUp isMobile now s).allowInteraction = true ∧
        (handlePointerUp isMobile now s).wasRotating = false ∧
        (handlePointerUp isMobile now s).wasRotatingState = false) ∧
    (∀ (isMobile : Bool) (now : ℚ) (s : SceneState),
      s.wasRotating = true → s.allowInteraction = false →
        ((handlePointerUp isMobile now s).allowInteraction = true ↔
          classifiesAsClick isMobile (now - s.dragStartTime)
            (s.dragDistance.1 + s.dragDistance.2))) ∧
    classifiesAsClick false 199 9 ∧
    ¬ classifiesAsClick false 201 9 ∧
    ¬ classifiesAsClick false 199 11 := by
  refine ⟨fun _ _ _ => Iff.rfl, ?_, ?_, by decide, by decide, by decide⟩
  · intro isMobile now s h
    simp only [handlePointerUp]
    rw [if_neg (fun hc => hc.1 h), if_pos h]
    exact ⟨rfl, rfl, rfl⟩
  · intro isMobile now s hw ha
    by_cases hc : classifiesAsClick isMobile (now - s.dragStartTime)
        (s.dragDistance.1 + s.dragDistance.2)
    · simp only [handlePointerUp]
      rw [if_neg (fun hcon => hcon.1 hc), if_pos hc]
      simpa using hc
    · simp only [handlePointerUp]
      rw [if_pos ⟨hc, hw⟩]
      simpa [ha] using hc

/-- Witness for C1 at a concrete input: desktop, pointer down at time 0,
released at 199 ms with 9 px total drag, from a suppressed rotating
state. -/
theorem pointerUp_click_classification_witness :
    testUpState.wasRotating = true ∧ testUpState.allowInteraction = false ∧
      (handlePointerUp false 199 testUpState).allowInteraction = true :=
  ⟨rfl, rfl,
    (pointerUp_click_classification.2.2.1 false 199 testUpState rfl rfl).mpr
      (by norm_num [classifiesAsClick, testUpState])⟩

/-! ### Pointer-move rotation dispatch -/

/-- C2 counterexample: with an active back-layer panel (hence no
front-layer active panel) and accumulated drag distance far over the
desktop threshold, the pointer-move handler neither rotates the scene nor
sets `wasRotatingScene`, so the claim's "otherwise" branch (rotate the
scene once over the threshold) is false at this input. -/
theorem pointerMove_back_panel_counterexample :
    backPanelMoveState.isDragging = true ∧
      backPanelMoveState.activePanel = some backPanel ∧
      backPanel.layer = Layer.back ∧
      backPanelMoveState.dragDistance.1 +
          |(10 : ℚ) - backPanelMoveState.lastPosition.1| > 5 ∧
      (handlePointerMove false 10 10 backPanelMoveState).sceneRotation =
        backPanelMoveState.sceneRotation ∧
      (handlePointerMove false 10 10 backPanelMoveState).wasRotatingState = false := by
  refine ⟨rfl, rfl, rfl, by norm_num [backPanelMoveState], ?_, ?_⟩ <;> rfl

/-- C2 (amended): during pointer-move while dragging, an active
front-layer panel receives the `0.01`-scaled per-axis delta on its
rotation state and the scene never rotates; an active back-layer panel
suppresses both panel rotation and scene rotation; only when no active
panel is set at all does the scene rotate by the same per-axis delta —
with `wasRotatingScene` set and interaction suppressed — once either
axis's accumulated drag distance exceeds the threshold (5 px desktop,
2 px mobile). -/
theorem pointerMove_rotation_dispatch :
    (∀ (isMobile : Bool) (cx cy : ℚ) (s : SceneState) (p : PanelInfo),
      s.isDragging = true → s.activePanel = some p → p.layer = Layer.front →
        (handlePointerMove isMobile cx cy s).mediaStates =
          handleMediaRotation s.mediaStates p.index
            (((cx - s.lastPosition.1) * (1 / 100) : ℚ) : ℝ)
            (((cy - s.lastPosition.2) * (1 / 100) : ℚ) : ℝ) p.basePosition ∧
        (handlePointerMove isMobile cx cy s).sceneRotation = s.sceneRotation ∧
        (handlePointerMove isMobile cx cy s).wasRotating = s.wasRotating ∧
        (handlePointerMove isMobile cx cy s).wasRotatingState = s.wasRotatingState ∧
        (handlePointerMove isMobile cx cy s).allowInteraction = s.allowInteraction) ∧
    (∀ (isMobile : Bool) (cx cy : ℚ) (s : SceneState) (p : PanelInfo),
      s.isDragging = true → s.activePanel = some p → p.layer = Layer.back →
        (handlePointerMove isMobile cx cy s).mediaStates = s.mediaStates ∧
        (handlePointerMove isMobile cx cy s).sceneRotation = s.sceneRotation ∧
        (handlePointerMove isMobile cx cy s).wasRotating = s.wasRotating ∧
        (handlePointerMove isMobile cx cy s).wasRotatingState = s.wasRotatingState) ∧
    (∀ (isMobile : Bool) (cx cy : ℚ) (s : SceneState),
      s.isDragging = true → s.activePanel = none →
      (s.dragDistance.1 + |cx - s.lastPosition.1| > (if isMobile then (2 : ℚ) else 5) ∨
        s.dragDistance.2 + |cy - s.lastPosition.2| > (if isMobile then (2 : ℚ) else 5)) →
        (handlePointerMove isMobile cx cy s).sceneRotation =
          { x := s.sceneRotation.x + (cy - s.lastPosition.2) * (1 / 100)
            y := s.sceneRotation.y + (cx - s.lastPosition.1) * (1 / 100)
            z := s.sceneRotation.z } ∧
        (handlePointerMove isMobile cx cy s).wasRotating = true ∧
        (handlePointerMove isMobile cx cy s).wasRotatingState = true ∧
        (handlePointerMove isMobile cx cy s).allowInteraction = false ∧
        (handlePointerMove isMobile cx cy s).mediaStates = s.mediaStates) ∧
    (∀ (isMobile : Bool) (cx cy : ℚ) (s : SceneState),
      s.isDragging = true → s.activePanel = none →
      ¬ (s.dragDistance.1 + |cx - s.lastPosition.1| > (if isMobile then (2 : ℚ) else 5) ∨
          s.dragDistance.2 + |cy - s.lastPosition.2| > (if isMobile then (2 : ℚ) else 5)) →
        (handlePointerMove isMobile cx cy s).sceneRotation = s.sceneRotation ∧
        (handlePointerMove isMobile cx cy s).wasRotatingState = s.wasRotatingState ∧
        (handlePointerMove isMobile cx cy s).mediaStates = s.mediaStates) := by
  refine ⟨?_, ?_, ?_, ?_⟩
  · intro isMobile cx cy s p hd hp hl
    simp only [handlePointerMove, hd, hp, hl]
    simp
  · intro isMobile cx cy s p hd hp hl
    simp only [handlePointerMove, hd, hp, hl]
    simp
  · intro isMobile cx cy s hd hp hthr
    simp only [handlePointerMove, hd, hp]
    simp only [Bool.not_true, Bool.false_eq_true, if_false]
    rw [if_pos hthr]
    simp
  · intro isMobile cx cy s hd hp hthr
    simp only [handlePointerMove, hd, hp]
    simp only [Bool.not_true, Bool.false_eq_true, if_false]
    rw [if_neg hthr]
    simp

/-- Witness for C2's amended theorem at a concrete input: desktop, no
active panel, accumulated distance over the threshold; the scene rotates
and `wasRotatingScene` is set. -/
theorem pointerMove_rotation_dispatch_witness :
    testUpState.isDragging = true ∧ testUpState.activePanel = none ∧
      testUpState.dragDistance.1 + |(10 : ℚ) - testUpState.lastPosition.1| > 5 ∧
      (handlePointerMove false 10 0 testUpState).wasRotatingState = true :=
  ⟨rfl, rfl, by norm_num [testUpState],
    (pointerMove_rotation_dispatch.2.2.1 false 10 0 testUpState rfl rfl
      (Or.inl (by norm_num [testUpState]))).2.2.1⟩

/-! ### Interaction-cooldown timers -/

theorem mem_clearPending (l : List (ℕ × ℕ)) (o : Option ℕ) (t : ℕ × ℕ) :
    t ∈ clearPending l o ↔ t ∈ l ∧ some t.1 ≠ o := by
  cases o with
  | none => simp [clearPending]
  | some i => simp [clearPending, List.mem_filter]

theorem clearPending_append (l₁ l₂ : List (ℕ × ℕ)) (o : Option ℕ) :
    clearPending (l₁ ++ l₂) o = clearPending l₁ o ++ clearPending l₂ o := by
  cases o with
  | none => rfl
  | some i => simp [clearPending, List.filter_append]

theorem clearPending_nil_of_owner (l : List (ℕ × ℕ)) (o₁ o₂ : Option ℕ)
    (h : ∀ t ∈ l, some t.1 = o₁ ∨ some t.1 = o₂) :
    clearPending (clearPending l o₁) o₂ = [] := by
  rw [List.eq_nil_iff_forall_not_mem]
  intro t ht
  rw [mem_clearPending, mem_clearPending] at ht
  rcases h t ht.1.1 with h1 | h1
  · exact ht.1.2 h1
  · exact ht.2 h1

theorem clearPending_singleton_of_ne (a b : ℕ) (o : Option ℕ) (h : some a ≠ o) :
    clearPending [(a, b)] o = [(a, b)] := by
  cases o with
  | none => rfl
  | some i =>
      simp only [clearPending, List.filter_eq_self, List.mem_singleton]
      rintro c rfl
      simpa using h

theorem clearPending_nodup (l : List (ℕ × ℕ)) (o : Option ℕ)
    (h : (l.map Prod.fst).Nodup) : ((clearPending l o).map Prod.fst).Nodup := by
  cases o with
  | none => exact h
  | some i => exact ((List.filter_sublist l).map Prod.fst).nodup h

theorem clearTimer_nextId (p : TimerPool) (o : Option ℕ) :
    (clearTimer p o).nextId = p.nextId := rfl

theorem TimerInv_sceneResetEffect (s : EffectState) (h : TimerInv s) :
    TimerInv (sceneResetEffect s) := by
  obtain ⟨h1, h2, h3, h4, h5⟩ := h
  simp only [sceneResetEffect, setTimer, clearTimer, clearTimer_nextId]
  by_cases hrot : s.wasRotatingState = true
  · rw [if_pos hrot]
    refine ⟨?_, ?_, ?_, ?_, ?_⟩
    · intro t ht
      rcases List.mem_append.1 ht with hl | hr
      · exact Nat.lt_succ_of_lt (h1 t ((mem_clearPending _ _ _).1 hl).1)
      · rw [List.mem_singleton] at hr
        rw [hr]
        exact Nat.lt_succ_self _
    · rw [List.map_append, List.nodup_append]
      refine ⟨clearPending_nodup _ _ h2, List.nodup_singleton _, ?_⟩
      intro a ha hb
      rw [List.mem_map] at ha
      obtain ⟨t, ht, rfl⟩ := ha
      simp only [List.map_cons, List.map_nil, List.mem_singleton] at hb
      have hlt := h1 t ((mem_clearPending _ _ _).1 ht).1
      omega
    · intro t ht
      rcases List.mem_append.1 ht with hl | hr
      · rw [mem_clearPending] at hl
        rcases h3 t hl.1 with hsc | hstr
        · exact absurd hsc hl.2
        · exact Or.inr hstr
      · rw [List.mem_singleton] at hr
        rw [hr]
        exact Or.inl rfl
    · intro i hi
      rw [Option.some.injEq] at hi
      show i < s.pool.nextId + 1
      omega
    · intro i hi
      exact Nat.lt_succ_of_lt (h5 i hi)
  · rw [if_neg hrot]
    refine ⟨?_, clearPending_nodup s.pool.pending s.sceneTimer h2, ?_, h4, h5⟩
    · intro t ht
      exact h1 t ((mem_clearPending _ _ _).1 ht).1
    · intro t ht
      rw [mem_clearPending] at ht
      rcases h3 t ht.1 with hsc | hstr
      · exact absurd hsc ht.2
      · exact Or.inr hstr

theorem TimerInv_stripInteractionEffect (s : EffectState) (h : TimerInv s) :
    TimerInv (stripInteractionEffect s) := by
  obtain ⟨h1, h2, h3, h4, h5⟩ := h
  simp only [stripInteractionEffect, setTimer, clearTimer, clearTimer_nextId]
  by_cases hrot : s.wasRotatingState = true
  · rw [if_pos hrot]
    refine ⟨?_, ?_, ?_, ?_, ?_⟩
    · intro t ht
      rcases List.mem_append.1 ht with hl | hr
      · exact Nat.lt_succ_of_lt (h1 t ((mem_clearPending _ _ _).1 hl).1)
      · rw [List.mem_singleton] at hr
        rw [hr]
        exact Nat.lt_succ_self _
    · rw [List.map_append, List.nodup_append]
      refine ⟨clearPending_nodup _ _ h2, List.nodup_singleton _, ?_⟩
      intro a ha hb
      rw [List.mem_map] at ha
      obtain ⟨t, ht, rfl⟩ := ha
      simp only [List.map_cons, List.map_nil, List.mem_singleton] at hb
      have hlt := h1 t ((mem_clearPending _ _ _).1 ht).1
      omega
    · intro t ht
      rcases List.mem_append.1 ht with hl | hr
      · rw [mem_clearPending] at hl
        rcases h3 t hl.1 with hsc | hstr
        · exact Or.inl hsc
        · exact absurd hstr hl.2
      · rw [List.mem_singleton] at hr
        rw [hr]
        exact Or.inr rfl
    · intro i hi
      exact Nat.lt_succ_of_lt (h4 i hi)
    · intro i hi
      rw [Option.some.injEq] at hi
      show i < s.pool.nextId + 1
      omega
  · rw [if_neg hrot]
    refine ⟨?_, clearPending_nodup s.pool.pending s.stripTimer h2, ?_, h4, h5⟩
    · intro t ht
      exact h1 t ((mem_clearPending _ _ _).1 ht).1
    · intro t ht
      rw [mem_clearPending] at ht
      rcases h3 t ht.1 with hsc | hstr
      · exact Or.inl hsc
      · exact absurd hstr ht.2

theorem TimerInv_runEffects (s : EffectState) (h : TimerInv s) :
    TimerInv (runEffects s) :=
  TimerInv_sceneResetEffect _ (TimerInv_stripInteractionEffect _ h)

theorem TimerInv_clearTimer (s : EffectState) (i : ℕ) (h : TimerInv s) :
    TimerInv { s with pool := clearTimer s.pool (some i) } := by
  obtain ⟨h1, h2, h3, h4, h5⟩ := h
  refine ⟨?_, clearPending_nodup s.pool.pending (some i) h2, ?_, h4, h5⟩
  · intro t ht
    exact h1 t ((mem_clearPending s.pool.pending (some i) t).1 ht).1
  · intro t ht
    exact h3 t ((mem_clearPending s.pool.pending (some i) t).1 ht).1

theorem TimerInv_stepEvent (e : TimerEvent) (s : EffectState) (h : TimerInv s) :
    TimerInv (stepEvent e s) := by
  cases e with
  | startRotating =>
      simp only [stepEvent, startSceneRotation]
      by_cases hrot : s.wasRotatingState = true
      · rw [if_pos hrot]
        exact h
      · rw [if_neg hrot]
        exact TimerInv_runEffects _ h
  | clickStop =>
      simp only [stepEvent, clickStop]
      by_cases hrot : s.wasRotatingState = true
      · rw [if_pos hrot]
        exact TimerInv_runEffects _ h
      · rw [if_neg hrot]
        exact h
  | sceneFire =>
      cases hsc : s.sceneTimer with
      | none =>
          simp only [stepEvent, fireSceneTimer, hsc]
          exact h
      | some i =>
          simp only [stepEvent, fireSceneTimer, hsc]
          by_cases hany : s.pool.pending.any (fun t => t.1 = i) = true
          · rw [if_pos hany]
            have hmid : TimerInv { s with
                pool := clearTimer s.pool (some i)
                wasRotatingRef := false
                allowInteraction := true } := TimerInv_clearTimer s i h
            by_cases hrot : s.wasRotatingState = true
            · rw [if_pos hrot]
              refine TimerInv_runEffects _ ?_
              obtain ⟨g1, g2, g3, g4, g5⟩ := hmid
              exact ⟨g1, g2, fun t ht => by simpa [hsc] using g3 t ht,
                fun j hj => g4 j (by simpa [hsc] using hj), g5⟩
            · rw [if_neg hrot]
              obtain ⟨g1, g2, g3, g4, g5⟩ := hmid
              exact ⟨g1, g2, fun t ht => by simpa [hsc] using g3 t ht,
                fun j hj => g4 j (by simpa [hsc] using hj), g5⟩
          · rw [if_neg hany]
            exact h
  | stripFire =>
      cases hst : s.stripTimer with
      | none =>
          simp only [stepEvent, fireStripTimer, hst]
          exact h
      | some i =>
          simp only [stepEvent, fireStripTimer, hst]
          by_cases hany : s.pool.pending.any (fun t => t.1 = i) = true
          · rw [if_pos hany]
            obtain ⟨g1, g2, g3, g4, g5⟩ := TimerInv_clearTimer s i h
            exact ⟨g1, g2, fun t ht => by simpa [hst] using g3 t ht, g4,
              fun j hj => g5 j (by simpa [hst] using hj)⟩
          · rw [if_neg hany]
            exact h

theorem filter_ref_length_le_one (l : List (ℕ × ℕ)) (o : Option ℕ)
    (hnodup : (l.map Prod.fst).Nodup) :
    (l.filter (fun t => some t.1 = o)).length ≤ 1 := by
  cases o with
  | none => simp
  | some i =>
      induction l with
      | nil => simp
      | cons a l ih =>
          rw [List.map_cons, List.nodup_cons] at hnodup
          by_cases ha : a.1 = i
          · have hnil : l.filter (fun t => some t.1 = some i) = [] := by
              rw [List.filter_eq_nil_iff]
              intro t ht hdec
              rw [decide_eq_true_eq, Option.some.injEq] at hdec
              exact hnodup.1 (by
                rw [List.mem_map]
                exact ⟨t, ht, by rw [hdec, ha]⟩)
            rw [List.filter_cons, if_pos (by simp [ha]), hnil]
            simp
          · rw [List.filter_cons, if_neg (by simp [ha])]
            exact ih hnodup.2

theorem startSceneRotation_eq (s : EffectState) (h : TimerInv s)
    (hrot : s.wasRotatingState = false) :
    startSceneRotation s =
      { wasRotatingState := true
        wasRotatingRef := true
        allowInteraction := false
        stripEnabled := false
        sceneTimer := some (s.pool.nextId + 1)
        stripTimer := some s.pool.nextId
        pool := { pending := [(s.pool.nextId, 1000), (s.pool.nextId + 1, 300)]
                  nextId := s.pool.nextId + 2 } } := by
  obtain ⟨h1, h2, h3, h4, h5⟩ := h
  have hsceneclear :
      clearPending (clearPending s.pool.pending s.stripTimer) s.sceneTimer = [] :=
    clearPending_nil_of_owner _ _ _ (fun t ht => (h3 t ht).symm)
  have hfresh : some s.pool.nextId ≠ s.sceneTimer := by
    intro hcontra
    exact absurd (h4 s.pool.nextId hcontra.symm) (lt_irrefl _)
  have hrot2 : ¬ s.wasRotatingState = true := by
    rw [hrot]
    exact Bool.false_ne_true
  have hstep : startSceneRotation s =
      { wasRotatingState := true
        wasRotatingRef := true
        allowInteraction := false
        stripEnabled := false
        sceneTimer := some (s.pool.nextId + 1)
        stripTimer := some s.pool.nextId
        pool := { pending := clearPending (clearPending s.pool.pending s.stripTimer ++
                      [(s.pool.nextId, 1000)]) s.sceneTimer ++ [(s.pool.nextId + 1, 300)]
                  nextId := s.pool.nextId + 2 } } := by
    simp only [startSceneRotation]
    rw [if_neg hrot2]
    rfl
  rw [hstep, clearPending_append, hsceneclear,
    clearPending_singleton_of_ne s.pool.nextId 1000 s.sceneTimer hfresh, List.nil_append]
  rfl

theorem fireSceneTimer_after_start (n : ℕ) :
    fireSceneTimer
      { wasRotatingState := true
        wasRotatingRef := true
        allowInteraction := false
        stripEnabled := false
        sceneTimer := some (n + 1)
        stripTimer := some n
        pool := { pending := [(n, 1000), (n + 1, 300)], nextId := n + 2 } } =
      { wasRotatingState := false
        wasRotatingRef := false
        allowInteraction := true
        stripEnabled := true
        sceneTimer := some (n + 1)
        stripTimer := some n
        pool := { pending := [], nextId := n + 2 } } := by
  have hne : n ≠ n + 1 := by omega
  simp only [fireSceneTimer, List.any_cons, List.any_nil]
  rw [if_pos trivial]
  simp only [runEffects, stripInteractionEffect, sceneResetEffect, clearTimer,
    setTimer, clearPending]
  simp [List.filter, hne]

/-- C6: from any sound timer state, a scene-rotation release keeps
interaction suppressed and leaves exactly one pending cooldown timer,
with delay 300 ms, owned by the scene effect; firing that timer
re-enables interaction and the strip flag and leaves no timer pending;
and across every event of the machinery the pool invariant is preserved,
under which each effect owns at most one pending timer — re-running an
effect cancels and replaces its previous timer instead of stacking a
second one. -/
theorem interaction_cooldown_timer :
    (∀ (e : TimerEvent) (s : EffectState), TimerInv s → TimerInv (stepEvent e s)) ∧
    (∀ s : EffectState, TimerInv s →
      (s.pool.pending.filter (fun t => some t.1 = s.sceneTimer)).length ≤ 1 ∧
      (s.pool.pending.filter (fun t => some t.1 = s.stripTimer)).length ≤ 1) ∧
    (∀ s : EffectState, TimerInv s → s.wasRotatingState = false →
      (startSceneRotation s).allowInteraction = false ∧
      (startSceneRotation s).stripEnabled = false ∧
      ((startSceneRotation s).pool.pending.filter
          (fun t => some t.1 = (startSceneRotation s).sceneTimer)).map Prod.snd =
        [300] ∧
      (fireSceneTimer (startSceneRotation s)).allowInteraction = true ∧
      (fireSceneTimer (startSceneRotation s)).stripEnabled = true ∧
      (fireSceneTimer (startSceneRotation s)).wasRotatingState = false ∧
      (fireSceneTimer (startSceneRotation s)).pool.pending = []) := by
  refine ⟨TimerInv_stepEvent, ?_, ?_⟩
  · intro s h
    exact ⟨filter_ref_length_le_one _ _ h.2.1, filter_ref_length_le_one _ _ h.2.1⟩
  · intro s h hrot
    rw [startSceneRotation_eq s h hrot, fireSceneTimer_after_start s.pool.nextId]
    have hne : ¬ (s.pool.nextId = s.pool.nextId + 1) := by omega
    refine ⟨rfl, rfl, ?_, rfl, rfl, rfl, rfl⟩
    simp [List.filter, hne]

/-- Witness for C6 at a concrete input: the mount-time state (no timers,
not rotating). -/
theorem interaction_cooldown_timer_witness :
    TimerInv initialEffectState ∧ initialEffectState.wasRotatingState = false ∧
      (startSceneRotation initialEffectState).allowInteraction = false ∧
      ((startSceneRotation initialEffectState).pool.pending.filter
          (fun t => some t.1 = (startSceneRotation initialEffectState).sceneTimer)).map
        Prod.snd = [300] ∧
      (fireSceneTimer (startSceneRotation initialEffectState)).allowInteraction = true :=
  ⟨⟨by simp [initialEffectState], by simp [initialEffectState],
      by simp [initialEffectState], by simp [initialEffectState],
      by simp [initialEffectState]⟩,
    rfl,
    (interaction_cooldown_timer.2.2 initialEffectState
      ⟨by simp [initialEffectState], by simp [initialEffectState],
        by simp [initialEffectState], by simp [initialEffectState],
        by simp [initialEffectState]⟩ rfl).1,
    (interaction_cooldown_timer.2.2 initialEffectState
      ⟨by simp [initialEffectState], by simp [initialEffectState],
        by simp [initialEffectState], by simp [initialEffectState],
        by simp [initialEffectState]⟩ rfl).2.2.1,
    (interaction_cooldown_timer.2.2 initialEffectState
      ⟨by simp [initialEffectState], by simp [initialEffectState],
        by simp [initialEffectState], by simp [initialEffectState],
        by simp [initialEffectState]⟩ rfl).2.2.2.1⟩

end Inperspective
